import Mathlib

/-!
Verification development for the token-based authentication core of the
repository: the request authenticator and role authorizer
(src/unnamed/part_002), the edge route gate (the middleware in
src/test-auth-flow.js, second document), the API route handlers built on
them (src/src/app/api/upload-verification/route.ts, second to fourth
documents), and the client-side session cache
(src/src/lib/useAuth.tsx, the useAuthNew document).

Conventions of the embedding:
- Timestamps are integers (milliseconds since epoch), as in the source
  where they are JavaScript numbers produced by Date.now().
- Fallible collaborators (token parsing, the user store, network calls)
  are modelled by explicit outcome types.
- HTTP responses are records carrying exactly the observable fields the
  source sets: status, success flag, message, optional debug payload,
  headers, redirect target, and cookie-clearing effect.
-/

namespace Spec2Proof

/-! ## Token codec -/

/-- Modelled from the spec: the token codec (functions issue and parse of
the lib auth module) is imported by src/unnamed/part_002 and the login and
register routes but its source file is not under src/. Per the spec
(section 4.1), a token is an opaque string encoding a subject and an
issuedAt timestamp, cryptographically signed with a server secret; parse
verifies the signature and fails (returning invalid, never throwing) on
malformed input, signature mismatch, or decoding error. We model a token
value as its decoded payload together with a flag saying whether its
signature verifies under the server secret; a malformed string is a token
whose flag is false. -/
structure Token where
  subject : String
  issuedAt : Int
  sigOk : Bool
deriving Repr, DecidableEq

/-- The payload that parseToken returns on success: in
src/unnamed/part_002 the fields used are tokenData.userId and
tokenData.timestamp. -/
structure TokenData where
  userId : String
  timestamp : Int
deriving Repr, DecidableEq

/-- Modelled from the spec: parse verifies the signature and decodes the
payload; any malformed or mis-signed token yields none. -/
def parseToken (tok : Token) : Option TokenData :=
  if tok.sigOk then some { userId := tok.subject, timestamp := tok.issuedAt } else none

/-- Modelled from the spec: issue produces a signed token embedding the
subject and the current time (section 4.1). -/
def issueToken (subject : String) (now : Int) : Token :=
  { subject := subject, issuedAt := now, sigOk := true }

/-- TOKEN_MAX_AGE_MS from src/unnamed/part_002 line 8: seven days in
milliseconds. -/
def TOKEN_MAX_AGE_MS : Int := 7 * 24 * 60 * 60 * 1000

/-! ## User store -/

/-- A user document in the users collection, restricted to the fields the
auth core reads: _id, username, role, password (stripped before being
returned), and the active status flag. -/
structure UserRec where
  id : String
  username : String
  role : String
  password : String
deriving Repr, DecidableEq

/-- The user record as returned by authenticateRequest: the source strips
the password field before returning (src/unnamed/part_002 line 77). -/
structure AuthUser where
  id : String
  username : String
  role : String
deriving Repr, DecidableEq

/-- The user-store collaborator: a list of user documents plus a flag
saying whether the lookup infrastructure raises a fault (the dbError
branch of src/unnamed/part_002 lines 83-89). -/
structure Db where
  users : List UserRec
  faulty : Bool
deriving Repr, DecidableEq

/-! ## Requests -/

/-- The Authorization header, modelled as a scheme word followed by a
token (the source checks startsWith Bearer then takes split index 1). -/
structure AuthHeader where
  scheme : String
  token : Token
deriving Repr, DecidableEq

/-- An incoming request, restricted to the fields the auth core reads:
method, pathname, the origin header, the Authorization header, the token
cookie, and the token query parameter. -/
structure Request where
  method : String
  pathname : String
  origin : Option String
  authorization : Option AuthHeader
  cookieToken : Option Token
  queryToken : Option Token
deriving Repr, DecidableEq

/-! ## Request authenticator (authenticateRequest, src/unnamed/part_002) -/

/-- The result of authenticateRequest: the source returns an object with
exactly one of user and error non-null. -/
inductive AuthResult where
  | ok (user : AuthUser)
  | err (msg : String)
deriving Repr, DecidableEq

/-- authenticateRequest from src/unnamed/part_002 lines 23-95. It reads
the token ONLY from the request cookie (line 25), parses it, checks the
seven-day expiry window, then looks the user up; a store fault yields the
distinct database-error outcome (lines 83-89). The outer catch (lines
90-94, for example an invalid ObjectId string) is not modelled: user ids
in the model are plain strings, so the ObjectId constructor cannot throw. -/
def authenticateRequest (db : Db) (now : Int) (req : Request) : AuthResult :=
  match req.cookieToken with
  | none => .err "No token provided"
  | some tok =>
    match parseToken tok with
    | none => .err "Invalid token format"
    | some tokenData =>
      if now - tokenData.timestamp > TOKEN_MAX_AGE_MS then
        .err "Token expired"
      else if db.faulty then
        .err "Database error during authentication"
      else
        match db.users.find? (fun u => u.id == tokenData.userId) with
        | none => .err "User not found"
        | some u => .ok { id := u.id, username := u.username, role := u.role }

/-! ## Role authorizer (withAuth, src/unnamed/part_002) -/

/-- The environment flags read by the auth core: whether NODE_ENV equals
production and whether DEBUG_AUTH equals the string true. -/
structure Env where
  production : Bool
  debugAuthTrue : Bool
deriving Repr, DecidableEq

/-- An API response, restricted to the observable fields the source sets:
HTTP status, the success flag and message of the JSON body, the optional
debug payload of the body (the error text placed in the field named
underscore-debug), and whether the response carries a Set-Cookie that
clears the token cookie (value empty, maxAge 0). -/
structure ApiResponse where
  status : Nat
  success : Bool
  message : String
  debug : Option String
  clearsTokenCookie : Bool
deriving Repr, DecidableEq

/-- The outcome of running a wrapped handler: a response, or a thrown
exception carrying its message. -/
inductive HandlerOutcome where
  | ok (resp : ApiResponse)
  | throwing (errMsg : String)
deriving Repr, DecidableEq

/-- withAuth from src/unnamed/part_002 lines 104-169. Any authentication
error becomes a 401; a role mismatch becomes a 403; a handler exception
becomes a 500 whose debug payload is included exactly when DEBUG_AUTH is
the string true or NODE_ENV is not production (line 160). -/
def withAuth (env : Env) (db : Db) (now : Int)
    (handler : AuthUser → Request → HandlerOutcome)
    (roles : List String) (req : Request) : ApiResponse :=
  match authenticateRequest db now req with
  | .err e =>
    { status := 401, success := false, message := "Unauthorized: " ++ e,
      debug := none, clearsTokenCookie := false }
  | .ok user =>
    if roles.length > 0 && !(roles.contains user.role) then
      { status := 403, success := false,
        message := "Forbidden: Insufficient permissions",
        debug := none, clearsTokenCookie := false }
    else
      match handler user req with
      | .ok resp => resp
      | .throwing msg =>
        { status := 500, success := false, message := "Internal server error",
          debug := if env.debugAuthTrue || !env.production then some msg else none,
          clearsTokenCookie := false }

/-! ## API route handlers built on withAuth
(src/src/app/api/upload-verification/route.ts, documents 2-4) -/

/-- The handler of GET /api/auth/me (fourth document of
src/src/app/api/upload-verification/route.ts): returns 200 with the user
payload; the response body fields beyond status and success are not
needed by the claims. -/
def meHandler (_user : AuthUser) (_req : Request) : HandlerOutcome :=
  .ok { status := 200, success := true, message := "",
        debug := none, clearsTokenCookie := false }

/-- GET /api/auth/me: meHandler wrapped in withAuth with the default
roles list. -/
def meGET (env : Env) (db : Db) (now : Int) (req : Request) : ApiResponse :=
  withAuth env db now meHandler ["user"] req

/-- The handler of POST /api/auth/logout (second document of
src/src/app/api/upload-verification/route.ts, lines 103-127): returns 200
success and sets the token cookie to the empty value with maxAge 0. -/
def logoutHandler (_user : AuthUser) (_req : Request) : HandlerOutcome :=
  .ok { status := 200, success := true, message := "Đăng xuất thành công",
        debug := none, clearsTokenCookie := true }

/-- POST /api/auth/logout: logoutHandler wrapped in withAuth with the
default roles list. -/
def logoutPOST (env : Env) (db : Db) (now : Int) (req : Request) : ApiResponse :=
  withAuth env db now logoutHandler ["user"] req

/-! ## Route gate (the middleware of src/test-auth-flow.js, second
document, lines 199-499 of the concatenated file) -/

/-- The origin allow-list of the middleware. The source array literal is
missing the separators after the fourth and fifth entries; the embedded
list carries all seven listed origins. -/
def allowedOrigins : List String :=
  [ "https://inal-hsc1.com",
    "https://www.inal-hsc1.com",
    "https://london-hsc.com",
    "https://www.london-hsc.com",
    "https://family-neon.vercel.app",
    "http://localhost:3000",
    "http://127.0.0.1:3000" ]

/-- The securityHeaders constant of the middleware. -/
def securityHeaders : List (String × String) :=
  [ ("X-Content-Type-Options", "nosniff"),
    ("X-Frame-Options", "DENY"),
    ("X-XSS-Protection", "1; mode=block"),
    ("Referrer-Policy", "strict-origin-when-cross-origin"),
    ("Permissions-Policy", "camera=(), microphone=(), geolocation=()") ]

/-- response.headers.set: replaces the value of an existing header key,
or appends the pair. -/
def setHeader (hs : List (String × String)) (k v : String) : List (String × String) :=
  if hs.any (fun p => p.1 == k) then
    hs.map (fun p => if p.1 == k then (k, v) else p)
  else
    hs ++ [(k, v)]

/-- response.headers.get. -/
def getHeader (hs : List (String × String)) (k : String) : Option String :=
  (hs.find? (fun p => p.1 == k)).map (fun p => p.2)

/-- Structural character-list prefix test (second argument is the
candidate starting segment of the first). -/
def listStartsWith : List Char → List Char → Bool
  | _, [] => true
  | [], _ :: _ => false
  | c :: cs, d :: ds => c == d && listStartsWith cs ds

/-- The startsWith test of JavaScript strings, on the underlying
character lists. -/
def strStartsWith (s p : String) : Bool :=
  listStartsWith s.data p.data

/-- The kind of terminal response the middleware produces: a pass-through
(NextResponse.next), the empty 204 preflight response, a redirect, or a
JSON body response. -/
inductive RespKind where
  | next
  | empty204
  | redirect
  | json
deriving Repr, DecidableEq

/-- A middleware response, restricted to the observable fields the source
sets: kind, status, headers, redirect target pathname and query
parameters, whether it carries a Set-Cookie clearing the token cookie,
and the allow-list enumeration of the 403 JSON body when present. -/
structure MwResponse where
  kind : RespKind
  status : Nat
  headers : List (String × String)
  redirectTo : Option String
  redirectQuery : List (String × String)
  clearsTokenCookie : Bool
  jsonAllowedOrigins : Option (List String)
deriving Repr, DecidableEq

/-- NextResponse.next(): a plain pass-through response. -/
def mkNext : MwResponse :=
  { kind := .next, status := 200, headers := [], redirectTo := none,
    redirectQuery := [], clearsTokenCookie := false, jsonAllowedOrigins := none }

/-- NextResponse.redirect to /login with the given query parameters. -/
def mkLoginRedirect (query : List (String × String)) : MwResponse :=
  { kind := .redirect, status := 307, headers := [], redirectTo := some "/login",
    redirectQuery := query, clearsTokenCookie := false, jsonAllowedOrigins := none }

/-- setCorsHeaders from the middleware: sets the five CORS headers and
Vary on the given response. -/
def setCorsHeaders (r : MwResponse) (origin : String) : MwResponse :=
  let hs1 := setHeader r.headers "Access-Control-Allow-Origin" origin
  let hs2 := setHeader hs1 "Access-Control-Allow-Methods" "GET, POST, PUT, DELETE, OPTIONS"
  let hs3 := setHeader hs2 "Access-Control-Allow-Headers" "Content-Type, Authorization, X-Requested-With, Accept"
  let hs4 := setHeader hs3 "Access-Control-Allow-Credentials" "true"
  let hs5 := setHeader hs4 "Access-Control-Max-Age" "86400"
  let hs6 := setHeader hs5 "Vary" "Origin"
  { r with headers := hs6 }

/-- getTokenFromRequest from the middleware (lines 235-251 of the
concatenated file): the Authorization header wins when it starts with the
Bearer scheme, then the token cookie, then the token query parameter. -/
def getTokenFromRequest (req : Request) : Option Token :=
  match req.authorization with
  | some h =>
    if h.scheme == "Bearer" then some h.token
    else
      match req.cookieToken with
      | some c => some c
      | none => req.queryToken
  | none =>
    match req.cookieToken with
    | some c => some c
    | none => req.queryToken

/-- The publicPaths list of isPublicPath, with the four development-only
entries appended when NODE_ENV is development. -/
def publicPaths (dev : Bool) : List String :=
  [ "/", "/login", "/register", "/forgot-password", "/reset-password",
    "/api/auth", "/api/settings", "/api/public",
    "/_next", "/favicon.ico", "/icons", "/images", "/fonts",
    "/api/rates", "/api/markets", "/api/announcements" ]
  ++ (if dev then
        ["/api/__coverage__", "/__nextjs_original-stack-frame", "/_error", "/_webpack"]
      else [])

/-- isPublicPath from the middleware: the pathname equals a public path
or extends one with a slash. -/
def isPublicPath (dev : Bool) (pathname : String) : Bool :=
  (publicPaths dev).any (fun p => pathname == p || strStartsWith pathname (p ++ "/"))

/-- The outcome of the fetch to /api/auth/verify inside the middleware:
the response was ok, the response was not ok, or the fetch itself threw. -/
inductive VerifyOutcome where
  | ok
  | notOk
  | fault
deriving Repr, DecidableEq

/-- The middleware function (lines 294-499 of the concatenated file).
Everything after the try/catch block that ends at line 381 is
unreachable: the try branch returns on every path and the catch branch
returns, so the later origin-rejection blocks, the security-header
attachment, and the duplicated public-route logic (lines 383-498) are
dead code and are not part of the function behaviour. On a failed
verification the source sets the cookie-clearing Set-Cookie on the local
pass-through response object (line 366) but returns a freshly constructed
redirect response (line 371); the embedding mirrors that by binding the
mutated object to an unused local. -/
def middleware (dev : Bool) (verify : VerifyOutcome) (req : Request) : MwResponse :=
  let pathname := req.pathname
  let origin := req.origin.getD ""
  let isAllowedOrigin :=
    allowedOrigins.contains origin || (dev && strStartsWith origin "http://localhost")
  if req.method == "OPTIONS" then
    setCorsHeaders { mkNext with kind := .empty204, status := 204 } origin
  else
    let response := if isAllowedOrigin then setCorsHeaders mkNext origin else mkNext
    if isPublicPath dev pathname || strStartsWith pathname "/_next/" ||
        strStartsWith pathname "/static/" || strStartsWith pathname "/public/" ||
        pathname == "/favicon.ico" then
      response
    else
      let token := getTokenFromRequest req
      if strStartsWith pathname "/api/" then
        response
      else
        match token with
        | none =>
          if !(strStartsWith pathname "/login") then
            mkLoginRedirect [("returnUrl", pathname)]
          else
            response
        | some _ =>
          if strStartsWith pathname "/login" || strStartsWith pathname "/auth/" then
            response
          else
            match verify with
            | .ok => response
            | .fault => response
            | .notOk =>
              let _discarded := { response with clearsTokenCookie := true }
              mkLoginRedirect [("returnUrl", pathname), ("expired", "true")]

/-! ## Client session cache (useAuthNew, second document of
src/src/lib/useAuth.tsx) -/

/-- A cached entry as stored in browser localStorage: the user snapshot
(modelled by its id) and the write timestamp. -/
structure CacheEntry where
  userId : String
  timestamp : Int
deriving Repr, DecidableEq

/-- The localStorage slots the client auth code touches. The source uses
THREE distinct keys: auth_user_cache (written by setAuthCache, used by
login and logout), auth_user (written and removed directly by checkAuth
under the name USER_STORAGE_KEY), and auth_last_checked. -/
structure ClientStorage where
  authUserCache : Option CacheEntry
  authUser : Option CacheEntry
  lastCheckedStr : Option Int
deriving Repr, DecidableEq

/-- The client state held by the auth hook: the user state, the loading
flag, the in-memory lastChecked timestamp, and the localStorage view. -/
structure ClientState where
  user : Option String
  isLoading : Bool
  lastChecked : Int
  storage : ClientStorage
deriving Repr, DecidableEq

/-- The initial client state: no user, loading, never checked, empty
storage. -/
def initialClient : ClientState :=
  { user := none, isLoading := true, lastChecked := 0,
    storage := { authUserCache := none, authUser := none, lastCheckedStr := none } }

/-- setAuthCache from useAuthNew lines 77-92: a non-null user stores a
snapshot with the current timestamp under the auth_user_cache key; null
removes that key. -/
def setAuthCache (userData : Option String) (now : Int) (st : ClientStorage) : ClientStorage :=
  match userData with
  | some u => { st with authUserCache := some { userId := u, timestamp := now } }
  | none => { st with authUserCache := none }

/-- The outcome of the fetch to /api/auth/me inside checkAuth: ok with a
success body, an explicit failure response (for example 401), or a
network-level error thrown by fetch. -/
inductive MeOutcome where
  | success (userId : String)
  | authFailure
  | netError
deriving Repr, DecidableEq

/-- The result of one checkAuth invocation: the new client state and
whether a network call was made. -/
structure CheckAuthResult where
  state : ClientState
  madeNetworkCall : Bool
deriving Repr, DecidableEq

/-- checkAuth from useAuthNew lines 109-188. Not forced and checked
within the five-minute window: return without a network call. Otherwise
call /api/auth/me: on ok-and-success set the user and write the auth_user
storage key; on an explicit failure clear the user and remove the
auth_user storage key (the auth_user_cache key written by login is NOT
touched); on a network error leave user and cache untouched. The finally
block always clears loading and records the check time. -/
def checkAuth (now : Int) (outcome : MeOutcome) (force : Bool) (s : ClientState) : CheckAuthResult :=
  let cacheTimeout : Int := 5 * 60 * 1000
  if !force && s.lastChecked != 0 && now - s.lastChecked < cacheTimeout then
    { state := s, madeNetworkCall := false }
  else
    match outcome with
    | .success uid =>
      { state :=
          { s with
            user := some uid,
            isLoading := false,
            lastChecked := now,
            storage :=
              { s.storage with
                authUser := some { userId := uid, timestamp := now },
                lastCheckedStr := some now } },
        madeNetworkCall := true }
    | .authFailure =>
      { state :=
          { s with
            user := none,
            isLoading := false,
            lastChecked := now,
            storage :=
              { s.storage with
                authUser := none,
                lastCheckedStr := some now } },
        madeNetworkCall := true }
    | .netError =>
      { state :=
          { s with
            isLoading := false,
            lastChecked := now,
            storage := { s.storage with lastCheckedStr := some now } },
        madeNetworkCall := true }

/-- The outcome of the fetch to /api/auth/login inside the client login
function. -/
inductive LoginOutcome where
  | success (userId : String)
  | failed
  | netError
deriving Repr, DecidableEq

/-- The client login function from useAuthNew lines 191-236: on a success
body it writes the auth cache via setAuthCache and sets the user state;
otherwise it only reports failure. The finally block clears loading. -/
def loginClient (now : Int) (outcome : LoginOutcome) (s : ClientState) : ClientState :=
  match outcome with
  | .success uid =>
    { s with
      user := some uid,
      isLoading := false,
      storage := setAuthCache (some uid) now s.storage }
  | .failed => { s with isLoading := false }
  | .netError => { s with isLoading := false }

/-! ## Concrete fixtures used by witnesses and counterexamples -/

/-- A token for user u1 issued at time 0 with a valid signature. -/
def tok1 : Token := { subject := "u1", issuedAt := 0, sigOk := true }

/-- A token for user u1 with timestamp 0 whose signature does not
verify. -/
def badTok : Token := { subject := "u1", issuedAt := 0, sigOk := false }

/-- The user u1 with the default user role. -/
def user1 : UserRec := { id := "u1", username := "alice", role := "user", password := "pw" }

/-- A healthy store containing u1. -/
def db1 : Db := { users := [user1], faulty := false }

/-- A store containing u1 whose lookups raise a fault. -/
def dbFaulty : Db := { users := [user1], faulty := true }

/-- Production environment without the DEBUG_AUTH flag. -/
def envProd : Env := { production := true, debugAuthTrue := false }

/-- Production environment with DEBUG_AUTH set to the string true. -/
def envProdDebug : Env := { production := true, debugAuthTrue := true }

/-- A request to the me endpoint carrying the valid token in the cookie
only. -/
def reqWithTok : Request :=
  { method := "GET", pathname := "/api/auth/me", origin := none,
    authorization := none, cookieToken := some tok1, queryToken := none }

/-- A request carrying the valid token only in the Authorization Bearer
header, with no cookie and no query parameter. -/
def reqBearerOnly : Request :=
  { method := "GET", pathname := "/api/auth/me", origin := none,
    authorization := some { scheme := "Bearer", token := tok1 },
    cookieToken := none, queryToken := none }

/-- A request carrying no token at all. -/
def reqNoToken : Request :=
  { method := "POST", pathname := "/api/auth/logout", origin := none,
    authorization := none, cookieToken := none, queryToken := none }

/-- A request whose cookie token is old (timestamp 0) and mis-signed. -/
def reqOldBad : Request :=
  { method := "GET", pathname := "/api/auth/me", origin := none,
    authorization := none, cookieToken := some badTok, queryToken := none }

/-- A non-preflight API request from an origin outside the allow-list. -/
def reqApiEvil : Request :=
  { method := "GET", pathname := "/api/orders", origin := some "https://evil.example",
    authorization := none, cookieToken := none, queryToken := none }

/-- A CORS preflight request from an origin inside the allow-list. -/
def reqPreflight : Request :=
  { method := "OPTIONS", pathname := "/api/orders", origin := some "https://inal-hsc1.com",
    authorization := none, cookieToken := none, queryToken := none }

/-- A plain page request to the home path with no origin header. -/
def reqHome : Request :=
  { method := "GET", pathname := "/", origin := none,
    authorization := none, cookieToken := none, queryToken := none }

/-- A protected page request carrying the token cookie. -/
def reqDashboard : Request :=
  { method := "GET", pathname := "/dashboard", origin := none,
    authorization := none, cookieToken := some tok1, queryToken := none }

/-! ## Shared lemmas about the authenticator and authorizer -/

/-- A request without a cookie token fails authentication with the
no-token error. -/
theorem auth_err_noToken (db : Db) (now : Int) (req : Request)
    (hc : req.cookieToken = none) :
    authenticateRequest db now req = .err "No token provided" := by
  simp [authenticateRequest, hc]

/-- A cookie token that does not parse fails authentication with the
invalid-format error. -/
theorem auth_err_badParse (db : Db) (now : Int) (req : Request) (tok : Token)
    (hc : req.cookieToken = some tok) (hp : parseToken tok = none) :
    authenticateRequest db now req = .err "Invalid token format" := by
  simp [authenticateRequest, hc, hp]

/-- A cookie token that parses but is older than the seven-day window
fails authentication with the expiry error. -/
theorem auth_err_expired (db : Db) (now : Int) (req : Request)
    (tok : Token) (td : TokenData)
    (hc : req.cookieToken = some tok) (hp : parseToken tok = some td)
    (hage : now - td.timestamp > TOKEN_MAX_AGE_MS) :
    authenticateRequest db now req = .err "Token expired" := by
  simp [authenticateRequest, hc, hp, hage]

/-- A cookie token that parses and is within the window fails with the
distinct database-error outcome when the store lookup raises a fault. -/
theorem auth_err_dbFault (db : Db) (now : Int) (req : Request)
    (tok : Token) (td : TokenData)
    (hc : req.cookieToken = some tok) (hp : parseToken tok = some td)
    (hage : ¬(now - td.timestamp > TOKEN_MAX_AGE_MS)) (hf : db.faulty = true) :
    authenticateRequest db now req = .err "Database error during authentication" := by
  simp [authenticateRequest, hc, hp, hage, hf]

/-- Every authentication error makes withAuth answer the 401 response
carrying that error reason, with no debug payload and no cookie
change. -/
theorem withAuth_err (env : Env) (db : Db) (now : Int)
    (handler : AuthUser → Request → HandlerOutcome) (roles : List String)
    (req : Request) (e : String)
    (he : authenticateRequest db now req = .err e) :
    withAuth env db now handler roles req =
      { status := 401, success := false, message := "Unauthorized: " ++ e,
        debug := none, clearsTokenCookie := false } := by
  simp [withAuth, he]

/-! ## Claims -/

/-- Claim C1, amended: for every request whose token parses and is
unexpired but whose user-store lookup raises a fault, the request
authenticator fails with the distinct database-error outcome, and the
role authorizer surfaces it as a 401 response like every other
authentication error (not as a 500: in the source only handler
exceptions map to 500). -/
theorem dbFault_yields_storeError_and_401 (env : Env) (db : Db) (now : Int)
    (handler : AuthUser → Request → HandlerOutcome) (roles : List String)
    (req : Request) (tok : Token) (td : TokenData)
    (hc : req.cookieToken = some tok) (hp : parseToken tok = some td)
    (hage : ¬(now - td.timestamp > TOKEN_MAX_AGE_MS)) (hf : db.faulty = true) :
    authenticateRequest db now req = .err "Database error during authentication" ∧
    (withAuth env db now handler roles req).status = 401 := by
  have he := auth_err_dbFault db now req tok td hc hp hage hf
  refine ⟨he, ?_⟩
  rw [withAuth_err env db now handler roles req _ he]

/-- Witness for claim C1 at a concrete faulty store. -/
theorem dbFault_yields_storeError_and_401_witness :
    authenticateRequest dbFaulty 1000 reqWithTok
      = .err "Database error during authentication" ∧
    (withAuth envProd dbFaulty 1000 meHandler ["user"] reqWithTok).status = 401 :=
  dbFault_yields_storeError_and_401 envProd dbFaulty 1000 meHandler ["user"]
    reqWithTok tok1 { userId := "u1", timestamp := 0 } rfl rfl (by decide) rfl

/-- Counterexample for claim C1 as stated: on a concrete store fault the
role authorizer answers 401, not 500. -/
theorem dbFault_not_500_at_concrete :
    authenticateRequest dbFaulty 1000 reqWithTok
      = .err "Database error during authentication" ∧
    (withAuth envProd dbFaulty 1000 meHandler ["user"] reqWithTok).status = 401 ∧
    ¬ (withAuth envProd dbFaulty 1000 meHandler ["user"] reqWithTok).status = 500 := by
  decide

/-- Claim C2, code observation: a CORS preflight from an allowed origin
does get 204 with the echoed Access-Control-Allow-Origin header, but a
non-preflight request from a disallowed origin to an API path passes
through with status 200, no 403, and no JSON allow-list body: the
origin-rejection blocks of the middleware sit after an unconditional
return and are unreachable. -/
theorem cors_gate_at_failing_inputs :
    (middleware false .ok reqPreflight).status = 204 ∧
    getHeader (middleware false .ok reqPreflight).headers "Access-Control-Allow-Origin"
      = some "https://inal-hsc1.com" ∧
    (middleware false .ok reqApiEvil).kind = RespKind.next ∧
    (middleware false .ok reqApiEvil).status = 200 ∧
    (middleware false .ok reqApiEvil).jsonAllowedOrigins = none ∧
    ¬ (middleware false .ok reqApiEvil).status = 403 := by
  decide

/-- Claim C3, counterexample: a request carrying the valid token only in
the Authorization Bearer header (no cookie) is not authenticated: the
request authenticator reads only the cookie, fails with the no-token
error, and the role authorizer answers 401, even though the route-gate
extractor does see the Bearer token. -/
theorem bearer_only_rejected_cex :
    getTokenFromRequest reqBearerOnly = some tok1 ∧
    authenticateRequest db1 1000 reqBearerOnly = .err "No token provided" ∧
    (withAuth envProd db1 1000 meHandler ["user"] reqBearerOnly).status = 401 := by
  decide

/-- Claim C3, amended: the route-gate token extractor tries the
Authorization Bearer header first, then the session cookie, then the URL
query parameter, first match wins; the request authenticator itself reads
only the session cookie, so any request without a cookie token fails with
the no-token error regardless of its Bearer header or query parameter. -/
theorem token_priority_gate_cookie_only_authenticator :
    (∀ (req : Request) (h : AuthHeader), req.authorization = some h →
      h.scheme = "Bearer" → getTokenFromRequest req = some h.token) ∧
    (∀ (req : Request) (c : Token), req.authorization = none →
      req.cookieToken = some c → getTokenFromRequest req = some c) ∧
    (∀ (req : Request) (h : AuthHeader) (c : Token), req.authorization = some h →
      ¬ h.scheme = "Bearer" → req.cookieToken = some c →
      getTokenFromRequest req = some c) ∧
    (∀ req : Request, req.authorization = none → req.cookieToken = none →
      getTokenFromRequest req = req.queryToken) ∧
    (∀ (req : Request) (h : AuthHeader), req.authorization = some h →
      ¬ h.scheme = "Bearer" → req.cookieToken = none →
      getTokenFromRequest req = req.queryToken) ∧
    (∀ (db : Db) (now : Int) (req : Request), req.cookieToken = none →
      authenticateRequest db now req = .err "No token provided") := by
  refine ⟨?_, ?_, ?_, ?_, ?_, ?_⟩
  · intro req h ha hs
    simp [getTokenFromRequest, ha, hs]
  · intro req c ha hc
    simp [getTokenFromRequest, ha, hc]
  · intro req h c ha hs hc
    simp [getTokenFromRequest, ha, hs, hc]
  · intro req ha hc
    simp [getTokenFromRequest, ha, hc]
  · intro req h ha hs hc
    simp [getTokenFromRequest, ha, hs, hc]
  · intro db now req hc
    exact auth_err_noToken db now req hc

/-- Witness for claim C3 at a concrete Bearer-only request. -/
theorem token_priority_gate_cookie_only_authenticator_witness :
    getTokenFromRequest reqBearerOnly = some tok1 ∧
    authenticateRequest db1 1000 reqBearerOnly = .err "No token provided" :=
  ⟨token_priority_gate_cookie_only_authenticator.1 reqBearerOnly
      { scheme := "Bearer", token := tok1 } rfl rfl,
    token_priority_gate_cookie_only_authenticator.2.2.2.2.2 db1 1000 reqBearerOnly rfl⟩

/-- Claim C4, code observation: with NODE_ENV production and DEBUG_AUTH
set to the string true, a handler exception produces a 500 whose body
carries the internal error text in the debug payload: production alone
does not suppress the diagnostic, contradicting both the claim and the
source comment that details are only returned in development. -/
theorem prod_debug_leak_at_failing_input :
    envProdDebug.production = true ∧
    (withAuth envProdDebug db1 1000
      (fun _ _ => .throwing "ECONNREFUSED 10.0.0.5:27017") ["user"] reqWithTok).status = 500 ∧
    (withAuth envProdDebug db1 1000
      (fun _ _ => .throwing "ECONNREFUSED 10.0.0.5:27017") ["user"] reqWithTok).debug
      = some "ECONNREFUSED 10.0.0.5:27017" := by
  decide

/-- Claim C5, amended: a token that parses (its signature verifies) and
whose payload timestamp is more than seven days before now makes the
authenticator fail with the expiry error; a mis-signed token instead
fails at the parse step, so the expiry outcome is not reached regardless
of age. -/
theorem expired_token_with_valid_sig (db : Db) (now : Int) (req : Request)
    (tok : Token) (td : TokenData)
    (hc : req.cookieToken = some tok) (hp : parseToken tok = some td)
    (hage : now - td.timestamp > TOKEN_MAX_AGE_MS) :
    authenticateRequest db now req = .err "Token expired" :=
  auth_err_expired db now req tok td hc hp hage

/-- Witness for claim C5: the valid-signature token issued at time 0 is
expired at a time beyond the seven-day window. -/
theorem expired_token_with_valid_sig_witness :
    authenticateRequest db1 1000000000 reqWithTok = .err "Token expired" :=
  expired_token_with_valid_sig db1 1000000000 reqWithTok tok1
    { userId := "u1", timestamp := 0 } rfl rfl (by decide)

/-- Counterexample for claim C5 as stated: a token older than seven days
whose signature does not verify fails with the invalid-format error, not
the expiry error. -/
theorem old_invalid_sig_token_cex :
    (1000000000 : Int) - badTok.issuedAt > TOKEN_MAX_AGE_MS ∧
    authenticateRequest db1 1000000000 reqOldBad = .err "Invalid token format" ∧
    ¬ authenticateRequest db1 1000000000 reqOldBad = .err "Token expired" := by
  decide

/-- Claim C6, code observation: a pass-through response of the route gate
carries none of the security headers: the header-attachment code of the
middleware sits after an unconditional return and is unreachable, so the
pass-through for the public home path has an empty header list. -/
theorem passthrough_missing_security_headers :
    (middleware false .ok reqHome).kind = RespKind.next ∧
    (middleware false .ok reqHome).headers = [] ∧
    getHeader (middleware false .ok reqHome).headers "X-Content-Type-Options" = none ∧
    getHeader (middleware false .ok reqHome).headers "X-Frame-Options" = none ∧
    getHeader (middleware false .ok reqHome).headers "Referrer-Policy" = none ∧
    getHeader (middleware false .ok reqHome).headers "Permissions-Policy" = none := by
  decide

/-- Claim C7, code observation: for a protected page request carrying a
token, a non-ok verification response yields a redirect to /login with
returnUrl and expired set, but the returned redirect does not carry the
cookie-clearing Set-Cookie: the source applies the cookie clearing to the
discarded pass-through response object. A verification fault passes the
request through. -/
theorem verify_failure_redirect_without_cookie_clear :
    (middleware false .notOk reqDashboard).kind = RespKind.redirect ∧
    (middleware false .notOk reqDashboard).redirectTo = some "/login" ∧
    (middleware false .notOk reqDashboard).redirectQuery
      = [("returnUrl", "/dashboard"), ("expired", "true")] ∧
    (middleware false .notOk reqDashboard).clearsTokenCookie = false ∧
    (middleware false .fault reqDashboard).kind = RespKind.next := by
  decide

/-- Claim C8, code observation: login writes the cache entry under the
auth_user_cache key, but a forced re-check that receives an explicit
failure clears only the user state and the auth_user key: the entry
written at login survives a failed re-verification. A network-level error
leaves the user state and both storage entries untouched. -/
theorem failed_recheck_spares_login_cache :
    (loginClient 1000 (.success "u1") initialClient).storage.authUserCache
      = some { userId := "u1", timestamp := 1000 } ∧
    (checkAuth 400000 .authFailure true
      (loginClient 1000 (.success "u1") initialClient)).state.user = none ∧
    (checkAuth 400000 .authFailure true
      (loginClient 1000 (.success "u1") initialClient)).state.storage.authUser = none ∧
    (checkAuth 400000 .authFailure true
      (loginClient 1000 (.success "u1") initialClient)).state.storage.authUserCache
      = some { userId := "u1", timestamp := 1000 } ∧
    (checkAuth 400000 .netError true
      (loginClient 1000 (.success "u1") initialClient)).state.user = some "u1" ∧
    (checkAuth 400000 .netError true
      (loginClient 1000 (.success "u1") initialClient)).state.storage.authUserCache
      = some { userId := "u1", timestamp := 1000 } ∧
    (checkAuth 400000 .netError true
      (loginClient 1000 (.success "u1") initialClient)).state.storage.authUser
      = (loginClient 1000 (.success "u1") initialClient).storage.authUser := by
  decide

/-- Claim C9, code observation: logging out returns 200 and a Set-Cookie
clearing the token cookie, but the previously issued token still
authenticates afterwards: the token is stateless, the server keeps no
revocation state, and /api/auth/me with the old cookie returns 200, not
the 401 that the repository test test-auth-flow.js step 8 expects. -/
theorem stale_token_after_logout_still_authenticates :
    (meGET envProd db1 1000 reqWithTok).status = 200 ∧
    (logoutPOST envProd db1 2000 reqWithTok).status = 200 ∧
    (logoutPOST envProd db1 2000 reqWithTok).clearsTokenCookie = true ∧
    (meGET envProd db1 3000 reqWithTok).status = 200 ∧
    (meGET envProd db1 3000 reqWithTok).success = true ∧
    ¬ (meGET envProd db1 3000 reqWithTok).status = 401 := by
  decide

/-- Claim C10: the logout endpoint is wrapped in the role authorizer: a
request with no cookie token, an unparsable cookie token, or an expired
cookie token gets 401 with no cookie-clearing Set-Cookie; conversely the
cookie-clearing Set-Cookie is only produced when authentication
succeeded. -/
theorem logout_gate_unauthenticated_401 (env : Env) (db : Db) (now : Int) (req : Request) :
    ((req.cookieToken = none ∨
      (∃ tok, req.cookieToken = some tok ∧ parseToken tok = none) ∨
      (∃ tok td, req.cookieToken = some tok ∧ parseToken tok = some td ∧
        now - td.timestamp > TOKEN_MAX_AGE_MS)) →
      (logoutPOST env db now req).status = 401 ∧
      (logoutPOST env db now req).clearsTokenCookie = false) ∧
    ((logoutPOST env db now req).clearsTokenCookie = true →
      ∃ u, authenticateRequest db now req = AuthResult.ok u) := by
  constructor
  · intro h
    have he : ∃ e, authenticateRequest db now req = .err e := by
      rcases h with hc | ⟨tok, hc, hp⟩ | ⟨tok, td, hc, hp, hage⟩
      · exact ⟨_, auth_err_noToken db now req hc⟩
      · exact ⟨_, auth_err_badParse db now req tok hc hp⟩
      · exact ⟨_, auth_err_expired db now req tok td hc hp hage⟩
    rcases he with ⟨e, he⟩
    simp only [logoutPOST]
    rw [withAuth_err env db now logoutHandler ["user"] req e he]
    exact ⟨rfl, rfl⟩
  · intro h
    cases hA : authenticateRequest db now req with
    | ok u => exact ⟨u, rfl⟩
    | err e =>
      simp only [logoutPOST] at h
      rw [withAuth_err env db now logoutHandler ["user"] req e hA] at h
      exact Bool.noConfusion h

/-- Witness for claim C10 at a concrete tokenless logout request. -/
theorem logout_gate_unauthenticated_401_witness :
    (logoutPOST envProd db1 1000 reqNoToken).status = 401 ∧
    (logoutPOST envProd db1 1000 reqNoToken).clearsTokenCookie = false :=
  (logout_gate_unauthenticated_401 envProd db1 1000 reqNoToken).1 (Or.inl rfl)

end Spec2Proof
